import Mathlib

/-!
Verification of the query-response pipeline of `app.py` (hospital NLP→SQL app).

The script's original logic is the orchestration in the `if st.button(...) or
user_question:` handler: translate the question, extract the SQL after the
`SQLQuery: ` marker with `re.search(r'SQLQuery: (.*)', full_response, re.DOTALL)`,
execute it, parse the raw result (`isinstance(raw_result, list)` /
`ast.literal_eval`), branch on empty results, summarize, and optionally speak the
summary, with one outer and one inner `try/except` plus the internal catch of
`text_to_speech`.

The external collaborators (language-model chain, database tool,
`ast.literal_eval`, gTTS) are modelled as oracles whose outcomes are inputs; the
pipeline itself is embedded as a pure function producing the ordered list of
observable events of a single request: every Streamlit render call and every
invocation of an external collaborator, in program order.
-/

/-- Python `str.strip()` whitespace set (ASCII part used by the app's strings). -/
def isPySpace (c : Char) : Bool :=
  c = ' ' || c = '\t' || c = '\n' || c = '\x0b' || c = '\x0c' || c = '\r'

/-- Python `str.strip()`: drop leading and trailing whitespace. -/
def pyStrip (s : List Char) : List Char :=
  ((s.dropWhile isPySpace).reverse.dropWhile isPySpace).reverse

/-- The suffix after the first (leftmost) occurrence of `pat` in a string,
`none` when `pat` does not occur.  This is what greedy `(.*)` with `re.DOTALL`
captures in `re.search(r'SQLQuery: (.*)', s, re.DOTALL)`. -/
def afterFirst (pat : List Char) : List Char → Option (List Char)
  | [] => if pat.isPrefixOf ([] : List Char) then some [] else none
  | c :: rest =>
    if pat.isPrefixOf (c :: rest) then some ((c :: rest).drop pat.length)
    else afterFirst pat rest

/-- Substring containment test, via `afterFirst`. -/
def containsSub (pat s : List Char) : Bool :=
  (afterFirst pat s).isSome

/-- The marker matched by the app's regex `SQLQuery: (.*)`: note the trailing
space is part of the pattern. -/
def markerChars : List Char :=
  String.toList "SQLQuery: "

/-- `sql_only = re.search(r'SQLQuery: (.*)', full_response, re.DOTALL)`:
group 1 of the match (everything after the first occurrence of the marker,
to end of string), or `none` when the pattern does not match. -/
def sql_only (full_response : String) : Option (List Char) :=
  afterFirst markerChars full_response.toList

/-- `clean_query = sql_only.group(1).strip()` (defined when the search matched). -/
def clean_query (full_response : String) : Option String :=
  (sql_only full_response).map (fun t => String.mk (pyStrip t))

/-- A database cell, as found in the row tuples the executor yields. -/
inductive Cell
  | int (n : Int)
  | str (s : String)
deriving DecidableEq

/-- A result row (the Python tuple). -/
abbrev Row := List Cell

/-- The executor's output: either already a Python list of rows, or a string
serialization of one (`QuerySQLDatabaseTool` may return either). -/
inductive RawResult
  | rows (l : List Row)
  | text (s : String)
deriving DecidableEq

/-- Python `repr` of a cell (`str` of an int, single-quoted string). -/
def reprCell : Cell → String
  | .int n => toString n
  | .str s => String.singleton (Char.ofNat 39) ++ s ++ String.singleton (Char.ofNat 39)

/-- Python `repr` of a row tuple (single-element tuples keep a trailing comma). -/
def reprRow (r : Row) : String :=
  match r with
  | [c] => "(" ++ reprCell c ++ ",)"
  | _ => "(" ++ String.intercalate ", " (r.map reprCell) ++ ")"

/-- Python `repr` of the results list, as interpolated by the f-string. -/
def reprRows (l : List Row) : String :=
  "[" ++ String.intercalate ", " (l.map reprRow) ++ "]"

/-- The 28-space indentation inside the triple-quoted prompt f-string. -/
def sp28 : String :=
  "                            "

/-- The `nl_prompt` f-string built from the question and the parsed results. -/
def mkPrompt (question : String) (results : List Row) : String :=
  "\n" ++ sp28 ++ "Based on the query \"" ++ question ++ "\" and the results "
    ++ reprRows results ++ ",\n" ++ sp28
    ++ "provide a brief, clear summary of the findings in natural language.\n" ++ sp28

/-- The `audio_html` f-string wrapping the base64 audio payload. -/
def mkAudioHtml (audio_base64 : String) : String :=
  "\n            <audio controls autoplay=\"true\">\n                <source src=\"data:audio/mp3;base64,"
    ++ audio_base64
    ++ "\" type=\"audio/mp3\">\n                Your browser does not support the audio element.\n            </audio>\n            "

/-- One observable step of a request: a Streamlit render call or an invocation
of an external collaborator, in program order. -/
inductive Event
  | showSQL (s : String)
  | execCall (q : String)
  | resultsHeader
  | litEvalCall (s : String)
  | info (s : String)
  | table (rows : List Row)
  | summaryHeader
  | summarizeCall (prompt : String)
  | writeSummary (s : String)
  | voiceHeader
  | voiceCaption (s : String)
  | synthCall (text : String)
  | audioMarkdown (html : String)
  | errorMsg (s : String)
  | writeRaw (r : RawResult)
  | warning (s : String)
deriving DecidableEq

/-- Outcomes of the external collaborators for one request: the
translation chain, the SQL execution tool, `ast.literal_eval`, the summary
LLM call, and the gTTS synthesis chain (yielding the base64 audio on
success).  An `Except.error` carries the exception's message `str(e)`. -/
structure Oracles where
  translator : Except String String
  executor : String → Except String RawResult
  litEval : String → Except String (List Row)
  summarizer : String → Except String String
  tts : String → Except String String

/-- `text_to_speech`: returns its own rendered events (the gTTS call, and the
`st.error` when it raises) and the `audio_html` or `None`. -/
def text_to_speech (tts : String → Except String String) (text : String) :
    List Event × Option String :=
  match tts text with
  | .ok b64 => ([Event.synthCall text], some (mkAudioHtml b64))
  | .error e => ([Event.synthCall text, Event.errorMsg ("Error generating speech: " ++ e)], none)

/-- The events contributed by the parse step before its outcome is known:
`ast.literal_eval` is invoked exactly when the raw result is not already a list. -/
def parseCallEvents : RawResult → List Event
  | .rows _ => []
  | .text s => [Event.litEvalCall s]

/-- Lines 119–122: `results = raw_result if isinstance(raw_result, list) else
ast.literal_eval(raw_result)`. -/
def parse_results (litEval : String → Except String (List Row)) :
    RawResult → Except String (List Row)
  | .rows l => .ok l
  | .text s => litEval s

/-- Lines 139–144: the voice-output block, guarded by the toggle. -/
def voiceStep (o : Oracles) (enable_voice : Bool) (nl : String) : List Event :=
  if enable_voice then
    Event.voiceHeader :: Event.voiceCaption "Listen to the summary:" ::
      ((text_to_speech o.tts nl).1 ++
        match (text_to_speech o.tts nl).2 with
        | some html => [Event.audioMarkdown html]
        | none => [])
  else []

/-- Lines 124–144: the body after a successful parse — empty-result branch,
or table, summary and optional voice output. -/
def afterParse (o : Oracles) (enable_voice : Bool) (question : String)
    (raw : RawResult) (results : List Row) : List Event :=
  if results.length = 0 then [Event.info "No results found."]
  else
    Event.table results :: Event.summaryHeader ::
      Event.summarizeCall (mkPrompt question results) ::
      match o.summarizer (mkPrompt question results) with
      | .error e => [Event.errorMsg ("Error formatting results: " ++ e), Event.writeRaw raw]
      | .ok nl => Event.writeSummary nl :: voiceStep o enable_voice nl

/-- Lines 117–148: the inner `try/except` — parse, then continue; on a parse
(or summarization) exception, `st.error` the formatting message and
`st.write(raw_result)`. -/
def innerStep (o : Oracles) (enable_voice : Bool) (question : String)
    (raw : RawResult) : List Event :=
  parseCallEvents raw ++
    match parse_results o.litEval raw with
    | .error e => [Event.errorMsg ("Error formatting results: " ++ e), Event.writeRaw raw]
    | .ok results => afterParse o enable_voice question raw results

/-- Line 113 onward: execute the extracted SQL; an executor exception
propagates to the outer handler. -/
def execStep (o : Oracles) (enable_voice : Bool) (question cq : String) : List Event :=
  match o.executor cq with
  | .error e => [Event.errorMsg ("Error processing question: " ++ e)]
  | .ok raw => Event.resultsHeader :: innerStep o enable_voice question raw

/-- Lines 108–150: marker extraction and its else-branch. -/
def extractStep (o : Oracles) (enable_voice : Bool) (question full_response : String) :
    List Event :=
  match clean_query full_response with
  | none => [Event.errorMsg "Could not extract SQL query from response"]
  | some cq => Event.execCall cq :: execStep o enable_voice question cq

/-- Lines 96–154: one run of the request handler, as the ordered list of its
observable events.  The outer `try/except` renders translator and executor
exceptions as `Error processing question: …`. -/
def processQuestion (o : Oracles) (enable_voice : Bool) (question : String) :
    List Event :=
  if question = "" then [Event.warning "Please enter a question."]
  else
    match o.translator with
    | .error e => [Event.errorMsg ("Error processing question: " ++ e)]
    | .ok full_response => Event.showSQL full_response ::
        extractStep o enable_voice question full_response

/-! ### Stage-unfolding lemmas -/

theorem processQuestion_ok (o : Oracles) (ev : Bool) (q fr : String)
    (hq : q ≠ "") (ht : o.translator = Except.ok fr) :
    processQuestion o ev q = Event.showSQL fr :: extractStep o ev q fr := by
  unfold processQuestion
  rw [if_neg hq, ht]

theorem processQuestion_translator_err (o : Oracles) (ev : Bool) (q e : String)
    (hq : q ≠ "") (ht : o.translator = Except.error e) :
    processQuestion o ev q = [Event.errorMsg ("Error processing question: " ++ e)] := by
  unfold processQuestion
  rw [if_neg hq, ht]

theorem extractStep_some (o : Oracles) (ev : Bool) (q fr cq : String)
    (he : clean_query fr = some cq) :
    extractStep o ev q fr = Event.execCall cq :: execStep o ev q cq := by
  unfold extractStep
  rw [he]

theorem extractStep_none (o : Oracles) (ev : Bool) (q fr : String)
    (he : clean_query fr = none) :
    extractStep o ev q fr = [Event.errorMsg "Could not extract SQL query from response"] := by
  unfold extractStep
  rw [he]

theorem execStep_ok (o : Oracles) (ev : Bool) (q cq : String) (raw : RawResult)
    (hx : o.executor cq = Except.ok raw) :
    execStep o ev q cq = Event.resultsHeader :: innerStep o ev q raw := by
  unfold execStep
  rw [hx]

theorem execStep_err (o : Oracles) (ev : Bool) (q cq e : String)
    (hx : o.executor cq = Except.error e) :
    execStep o ev q cq = [Event.errorMsg ("Error processing question: " ++ e)] := by
  unfold execStep
  rw [hx]

theorem innerStep_ok (o : Oracles) (ev : Bool) (q : String) (raw : RawResult)
    (l : List Row) (hp : parse_results o.litEval raw = Except.ok l) :
    innerStep o ev q raw = parseCallEvents raw ++ afterParse o ev q raw l := by
  unfold innerStep
  rw [hp]

theorem innerStep_err (o : Oracles) (ev : Bool) (q e : String) (raw : RawResult)
    (hp : parse_results o.litEval raw = Except.error e) :
    innerStep o ev q raw =
      parseCallEvents raw ++
        [Event.errorMsg ("Error formatting results: " ++ e), Event.writeRaw raw] := by
  unfold innerStep
  rw [hp]

theorem afterParse_nil (o : Oracles) (ev : Bool) (q : String) (raw : RawResult) :
    afterParse o ev q raw [] = [Event.info "No results found."] := rfl

theorem afterParse_summ_err (o : Oracles) (ev : Bool) (q e : String) (raw : RawResult)
    (l : List Row) (hne : l ≠ [])
    (hs : o.summarizer (mkPrompt q l) = Except.error e) :
    afterParse o ev q raw l =
      [Event.table l, Event.summaryHeader, Event.summarizeCall (mkPrompt q l),
       Event.errorMsg ("Error formatting results: " ++ e), Event.writeRaw raw] := by
  unfold afterParse
  rw [if_neg (by simpa using hne), hs]

theorem afterParse_summ_ok (o : Oracles) (ev : Bool) (q nl : String) (raw : RawResult)
    (l : List Row) (hne : l ≠ [])
    (hs : o.summarizer (mkPrompt q l) = Except.ok nl) :
    afterParse o ev q raw l =
      Event.table l :: Event.summaryHeader :: Event.summarizeCall (mkPrompt q l) ::
        Event.writeSummary nl :: voiceStep o ev nl := by
  unfold afterParse
  rw [if_neg (by simpa using hne), hs]

theorem voiceStep_false (o : Oracles) (nl : String) : voiceStep o false nl = [] := rfl

theorem text_to_speech_err (tts : String → Except String String) (text e : String)
    (htts : tts text = Except.error e) :
    text_to_speech tts text =
      ([Event.synthCall text, Event.errorMsg ("Error generating speech: " ++ e)], none) := by
  unfold text_to_speech
  rw [htts]

theorem voiceStep_true_err (o : Oracles) (nl e : String)
    (htts : o.tts nl = Except.error e) :
    voiceStep o true nl =
      [Event.voiceHeader, Event.voiceCaption "Listen to the summary:",
       Event.synthCall nl, Event.errorMsg ("Error generating speech: " ++ e)] := by
  unfold voiceStep
  rw [text_to_speech_err o.tts nl e htts]
  rfl

theorem voiceStep_true_ok (o : Oracles) (nl b64 : String)
    (htts : o.tts nl = Except.ok b64) :
    voiceStep o true nl =
      [Event.voiceHeader, Event.voiceCaption "Listen to the summary:",
       Event.synthCall nl, Event.audioMarkdown (mkAudioHtml b64)] := by
  unfold voiceStep text_to_speech
  rw [htts]
  rfl

/-! ### Absence lemmas: events a stage can never emit -/

theorem execCall_not_mem_voiceStep (o : Oracles) (ev : Bool) (nl s : String) :
    Event.execCall s ∉ voiceStep o ev nl := by
  unfold voiceStep text_to_speech
  cases ev
  · simp
  · cases h : o.tts nl <;> simp [h]

theorem execCall_not_mem_afterParse (o : Oracles) (ev : Bool) (q s : String)
    (raw : RawResult) (l : List Row) :
    Event.execCall s ∉ afterParse o ev q raw l := by
  unfold afterParse
  split
  · simp
  · cases h : o.summarizer (mkPrompt q l) <;>
      simp [h, execCall_not_mem_voiceStep]

theorem execCall_not_mem_innerStep (o : Oracles) (ev : Bool) (q s : String)
    (raw : RawResult) :
    Event.execCall s ∉ innerStep o ev q raw := by
  unfold innerStep
  cases raw <;> cases h : parse_results o.litEval _ <;>
    simp [h, parseCallEvents, execCall_not_mem_afterParse]

theorem execCall_not_mem_execStep (o : Oracles) (ev : Bool) (q cq s : String) :
    Event.execCall s ∉ execStep o ev q cq := by
  unfold execStep
  cases h : o.executor cq <;> simp [h, execCall_not_mem_innerStep]

theorem synthCall_not_mem_afterParse_false (o : Oracles) (q t : String)
    (raw : RawResult) (l : List Row) :
    Event.synthCall t ∉ afterParse o false q raw l := by
  unfold afterParse
  split
  · simp
  · cases h : o.summarizer (mkPrompt q l) <;> simp [h, voiceStep_false]

theorem synthCall_not_mem_innerStep_false (o : Oracles) (q t : String)
    (raw : RawResult) :
    Event.synthCall t ∉ innerStep o false q raw := by
  unfold innerStep
  cases raw <;> cases h : parse_results o.litEval _ <;>
    simp [h, parseCallEvents, synthCall_not_mem_afterParse_false]

theorem synthCall_not_mem_execStep_false (o : Oracles) (q cq t : String) :
    Event.synthCall t ∉ execStep o false q cq := by
  unfold execStep
  cases h : o.executor cq <;> simp [h, synthCall_not_mem_innerStep_false]

theorem synthCall_not_mem_extractStep_false (o : Oracles) (q fr t : String) :
    Event.synthCall t ∉ extractStep o false q fr := by
  unfold extractStep
  cases h : clean_query fr <;> simp [h, synthCall_not_mem_execStep_false]

/-! ### Decomposition of the marker search -/

theorem afterFirst_eq_some (pat : List Char) (s t : List Char)
    (h : afterFirst pat s = some t) : ∃ pre, s = pre ++ pat ++ t := by
  induction s with
  | nil =>
    unfold afterFirst at h
    by_cases hp : pat.isPrefixOf ([] : List Char)
    · rw [if_pos hp] at h
      have hpre : pat <+: ([] : List Char) := List.isPrefixOf_iff_prefix.mp hp
      have hpat : pat = [] := List.prefix_nil.mp hpre
      refine ⟨[], ?_⟩
      have ht : t = [] := (Option.some.inj h).symm
      simp [hpat, ht]
    · rw [if_neg hp] at h
      exact absurd h (by simp)
  | cons c rest ih =>
    unfold afterFirst at h
    by_cases hp : pat.isPrefixOf (c :: rest)
    · rw [if_pos hp] at h
      obtain ⟨t2, ht2⟩ := List.isPrefixOf_iff_prefix.mp hp
      have hdrop : (c :: rest).drop pat.length = t2 := by
        rw [← ht2]
        exact List.drop_left _ _
      have ht : t2 = t := by
        rw [← hdrop]
        exact Option.some.inj h
      exact ⟨[], by rw [← ht, ← ht2]; simp⟩
    · rw [if_neg hp] at h
      obtain ⟨pre, hpre⟩ := ih h
      exact ⟨c :: pre, by rw [hpre]; rfl⟩

/-! ### Claims -/

/-- C1 (amended): for every translation string in which the code's marker
`SQLQuery: ` (trailing space included) occurs, extraction returns exactly the
substring following the first occurrence of the marker through the end of the
string, trimmed of leading and trailing whitespace, and that trimmed text is
the one and only query string ever passed to the executor for that request. -/
theorem C1_marker_extraction (fr : String) (t : List Char)
    (h : sql_only fr = some t) :
    (∃ pre, fr.toList = pre ++ markerChars ++ t) ∧
    clean_query fr = some (String.mk (pyStrip t)) ∧
    ∀ (o : Oracles) (ev : Bool) (q : String), q ≠ "" → o.translator = Except.ok fr →
      Event.execCall (String.mk (pyStrip t)) ∈ processQuestion o ev q ∧
      ∀ s, Event.execCall s ∈ processQuestion o ev q → s = String.mk (pyStrip t) := by
  have hcq : clean_query fr = some (String.mk (pyStrip t)) := by
    simp [clean_query, h]
  refine ⟨afterFirst_eq_some markerChars fr.toList t h, hcq, ?_⟩
  intro o ev q hq ht
  rw [processQuestion_ok o ev q fr hq ht, extractStep_some o ev q fr _ hcq]
  constructor
  · simp
  · intro s hs
    simpa [execCall_not_mem_execStep] using hs

/-- C1 (counterexample): the translation `SQLQuery:SELECT 1` contains the
marker `SQLQuery:` as the claim writes it, yet the code's pattern
`SQLQuery: (.*)` (trailing space) does not match, so extraction fails, the
pipeline reports the extraction error, and nothing is passed to the executor —
contradicting the claim that the trimmed text after `SQLQuery:` is executed. -/
theorem C1_marker_extraction_counterexample :
    containsSub (String.toList "SQLQuery:") (String.toList "SQLQuery:SELECT 1") = true ∧
    clean_query "SQLQuery:SELECT 1" = none ∧
    processQuestion
        ⟨Except.ok "SQLQuery:SELECT 1",
         fun _ => Except.ok (RawResult.rows []),
         fun _ => Except.ok [],
         fun _ => Except.ok "s",
         fun _ => Except.ok "b"⟩ false "q" =
      [Event.showSQL "SQLQuery:SELECT 1",
       Event.errorMsg "Could not extract SQL query from response"] := by
  refine ⟨by decide, by decide, by decide⟩

/-- C1 (witness): on the translation `SQLQuery: SELECT 1` the amended theorem
yields the trimmed query `SELECT 1` and its execution. -/
theorem C1_marker_extraction_witness :
    clean_query "SQLQuery: SELECT 1" = some "SELECT 1" ∧
    Event.execCall "SELECT 1" ∈
      processQuestion
        ⟨Except.ok "SQLQuery: SELECT 1",
         fun _ => Except.ok (RawResult.rows []),
         fun _ => Except.ok [],
         fun _ => Except.ok "s",
         fun _ => Except.ok "b"⟩ false "q" := by
  have h := C1_marker_extraction "SQLQuery: SELECT 1" (String.toList "SELECT 1") (by decide)
  have e : String.mk (pyStrip (String.toList "SELECT 1")) = "SELECT 1" := by decide
  constructor
  · rw [← e]
    exact h.2.1
  · rw [← e]
    exact (h.2.2 _ false "q" (by decide) rfl).1

/-- C2: when the marker search fails, the pipeline shows exactly the generated
text and the message `Could not extract SQL query from response`, and never
invokes the executor, `ast.literal_eval`, the summarizer, or speech synthesis. -/
theorem C2_no_marker_no_execution (o : Oracles) (ev : Bool) (q fr : String)
    (hq : q ≠ "") (ht : o.translator = Except.ok fr)
    (h : sql_only fr = none) :
    processQuestion o ev q =
      [Event.showSQL fr, Event.errorMsg "Could not extract SQL query from response"] ∧
    (∀ s, Event.execCall s ∉ processQuestion o ev q) ∧
    (∀ s, Event.litEvalCall s ∉ processQuestion o ev q) ∧
    (∀ p, Event.summarizeCall p ∉ processQuestion o ev q) ∧
    (∀ t, Event.synthCall t ∉ processQuestion o ev q) := by
  have he : clean_query fr = none := by simp [clean_query, h]
  have hm := processQuestion_ok o ev q fr hq ht
  rw [extractStep_none o ev q fr he] at hm
  refine ⟨hm, ?_, ?_, ?_, ?_⟩ <;> intro x <;> rw [hm] <;> simp

/-- C2 (witness): a translation without the marker, on a concrete oracle. -/
theorem C2_no_marker_no_execution_witness :
    processQuestion
        ⟨Except.ok "I cannot answer that.",
         fun _ => Except.ok (RawResult.rows []),
         fun _ => Except.ok [],
         fun _ => Except.ok "s",
         fun _ => Except.ok "b"⟩ true "q" =
      [Event.showSQL "I cannot answer that.",
       Event.errorMsg "Could not extract SQL query from response"] := by
  exact (C2_no_marker_no_execution _ true "q" "I cannot answer that."
    (by decide) rfl (by decide)).1

/-- C3: when translation, extraction, execution and parsing succeed with a
non-empty result but the summarization call fails, the failure is caught by
the inner handler (never by the outer `Error processing question` handler),
the results table is still presented, and no summary is written: the request
completes degraded. -/
theorem C3_summary_failure_keeps_table (o : Oracles) (ev : Bool)
    (q fr cq e : String) (raw : RawResult) (l : List Row)
    (hq : q ≠ "") (ht : o.translator = Except.ok fr)
    (he : clean_query fr = some cq) (hx : o.executor cq = Except.ok raw)
    (hp : parse_results o.litEval raw = Except.ok l) (hne : l ≠ [])
    (hs : o.summarizer (mkPrompt q l) = Except.error e) :
    processQuestion o ev q =
      [Event.showSQL fr, Event.execCall cq, Event.resultsHeader] ++
        parseCallEvents raw ++
        [Event.table l, Event.summaryHeader, Event.summarizeCall (mkPrompt q l),
         Event.errorMsg ("Error formatting results: " ++ e), Event.writeRaw raw] ∧
    Event.table l ∈ processQuestion o ev q ∧
    (∀ s, Event.writeSummary s ∉ processQuestion o ev q) ∧
    (∀ m, Event.errorMsg m ∈ processQuestion o ev q →
      m = "Error formatting results: " ++ e) := by
  have hm := processQuestion_ok o ev q fr hq ht
  rw [extractStep_some o ev q fr cq he, execStep_ok o ev q cq raw hx,
    innerStep_ok o ev q raw l hp, afterParse_summ_err o ev q e raw l hne hs] at hm
  have hm2 : processQuestion o ev q =
      [Event.showSQL fr, Event.execCall cq, Event.resultsHeader] ++
        parseCallEvents raw ++
        [Event.table l, Event.summaryHeader, Event.summarizeCall (mkPrompt q l),
         Event.errorMsg ("Error formatting results: " ++ e), Event.writeRaw raw] := by
    rw [hm]
    simp
  refine ⟨hm2, ?_, ?_, ?_⟩
  · rw [hm2]
    simp
  · intro s
    rw [hm2]
    cases raw <;> simp [parseCallEvents]
  · intro m
    rw [hm2]
    cases raw <;> simp [parseCallEvents]

/-- C3 (witness): a one-row result with a failing summarizer still shows the
table. -/
theorem C3_summary_failure_keeps_table_witness :
    Event.table [[Cell.int 1]] ∈
      processQuestion
        ⟨Except.ok "SQLQuery: SELECT 1",
         fun _ => Except.ok (RawResult.rows [[Cell.int 1]]),
         fun _ => Except.ok [],
         fun _ => Except.error "boom",
         fun _ => Except.ok "b"⟩ false "q" := by
  exact (C3_summary_failure_keeps_table _ false "q" "SQLQuery: SELECT 1"
    "SELECT 1" "boom" (RawResult.rows [[Cell.int 1]]) [[Cell.int 1]]
    (by decide) rfl (by decide) rfl rfl (by decide) rfl).2.1

/-- C4: when the raw execution result is a string that `ast.literal_eval`
rejects, the failure is caught: the formatting-error message is shown, the raw
unparsed text is written verbatim, and the request completes with no table, no
summarizer call and no synthesis call. -/
theorem C4_parse_failure_degrades (o : Oracles) (ev : Bool)
    (q fr cq s e : String)
    (hq : q ≠ "") (ht : o.translator = Except.ok fr)
    (he : clean_query fr = some cq)
    (hx : o.executor cq = Except.ok (RawResult.text s))
    (hl : o.litEval s = Except.error e) :
    processQuestion o ev q =
      [Event.showSQL fr, Event.execCall cq, Event.resultsHeader,
       Event.litEvalCall s,
       Event.errorMsg ("Error formatting results: " ++ e),
       Event.writeRaw (RawResult.text s)] ∧
    (∀ l, Event.table l ∉ processQuestion o ev q) ∧
    (∀ p, Event.summarizeCall p ∉ processQuestion o ev q) ∧
    (∀ t, Event.synthCall t ∉ processQuestion o ev q) := by
  have hp : parse_results o.litEval (RawResult.text s) = Except.error e := hl
  have hm := processQuestion_ok o ev q fr hq ht
  rw [extractStep_some o ev q fr cq he, execStep_ok o ev q cq _ hx,
    innerStep_err o ev q e _ hp] at hm
  have hm2 : processQuestion o ev q =
      [Event.showSQL fr, Event.execCall cq, Event.resultsHeader,
       Event.litEvalCall s,
       Event.errorMsg ("Error formatting results: " ++ e),
       Event.writeRaw (RawResult.text s)] := by
    rw [hm]
    simp [parseCallEvents]
  refine ⟨hm2, ?_, ?_, ?_⟩ <;> intro x <;> rw [hm2] <;> simp

/-- C4 (witness): malformed literal text degrades to the raw-text display. -/
theorem C4_parse_failure_degrades_witness :
    processQuestion
        ⟨Except.ok "SQLQuery: SELECT 1",
         fun _ => Except.ok (RawResult.text "not a literal"),
         fun _ => Except.error "malformed node or string",
         fun _ => Except.ok "s",
         fun _ => Except.ok "b"⟩ true "q" =
      [Event.showSQL "SQLQuery: SELECT 1", Event.execCall "SELECT 1",
       Event.resultsHeader, Event.litEvalCall "not a literal",
       Event.errorMsg ("Error formatting results: " ++ "malformed node or string"),
       Event.writeRaw (RawResult.text "not a literal")] := by
  exact (C4_parse_failure_degrades _ true "q" "SQLQuery: SELECT 1" "SELECT 1"
    "not a literal" "malformed node or string"
    (by decide) rfl (by decide) rfl rfl).1

/-- C5: the parse step uses a raw structured sequence directly and unchanged
(no `ast.literal_eval` call), and for a raw string it returns exactly what the
literal evaluator yields for that text; in both cases the pipeline continues
with precisely the parsed sequence. -/
theorem C5_parse_dispatch (o : Oracles) (ev : Bool) (q fr cq : String)
    (raw : RawResult) (l : List Row)
    (hq : q ≠ "") (ht : o.translator = Except.ok fr)
    (he : clean_query fr = some cq) (hx : o.executor cq = Except.ok raw)
    (hp : parse_results o.litEval raw = Except.ok l) :
    (∀ l0, raw = RawResult.rows l0 → l = l0 ∧ parseCallEvents raw = []) ∧
    (∀ s, raw = RawResult.text s → o.litEval s = Except.ok l) ∧
    processQuestion o ev q =
      [Event.showSQL fr, Event.execCall cq, Event.resultsHeader] ++
        parseCallEvents raw ++ afterParse o ev q raw l := by
  refine ⟨?_, ?_, ?_⟩
  · intro l0 h0
    subst h0
    have : Except.ok (ε := String) l0 = Except.ok l := hp
    exact ⟨(Except.ok.inj this).symm, rfl⟩
  · intro s h0
    subst h0
    exact hp
  · have hm := processQuestion_ok o ev q fr hq ht
    rw [extractStep_some o ev q fr cq he, execStep_ok o ev q cq raw hx,
      innerStep_ok o ev q raw l hp] at hm
    rw [hm]
    simp

/-- C5 (witness): a structured raw result is consumed directly. -/
theorem C5_parse_dispatch_witness :
    processQuestion
        ⟨Except.ok "SQLQuery: SELECT 1",
         fun _ => Except.ok (RawResult.rows [[Cell.int 1, Cell.str "Alice"]]),
         fun _ => Except.ok [],
         fun _ => Except.ok "s",
         fun _ => Except.ok "b"⟩ false "q" =
      [Event.showSQL "SQLQuery: SELECT 1", Event.execCall "SELECT 1",
       Event.resultsHeader] ++
        parseCallEvents (RawResult.rows [[Cell.int 1, Cell.str "Alice"]]) ++
        afterParse
          ⟨Except.ok "SQLQuery: SELECT 1",
           fun _ => Except.ok (RawResult.rows [[Cell.int 1, Cell.str "Alice"]]),
           fun _ => Except.ok [],
           fun _ => Except.ok "s",
           fun _ => Except.ok "b"⟩ false "q"
          (RawResult.rows [[Cell.int 1, Cell.str "Alice"]])
          [[Cell.int 1, Cell.str "Alice"]] := by
  exact (C5_parse_dispatch _ false "q" "SQLQuery: SELECT 1" "SELECT 1"
    (RawResult.rows [[Cell.int 1, Cell.str "Alice"]])
    [[Cell.int 1, Cell.str "Alice"]]
    (by decide) rfl (by decide) rfl rfl).2.2

/-- C6: a successfully parsed empty result yields exactly the `No results
found.` notice: no table is rendered and no error message of any kind is
shown — the empty result is success, not an error. -/
theorem C6_empty_results_notice (o : Oracles) (ev : Bool) (q fr cq : String)
    (raw : RawResult)
    (hq : q ≠ "") (ht : o.translator = Except.ok fr)
    (he : clean_query fr = some cq) (hx : o.executor cq = Except.ok raw)
    (hp : parse_results o.litEval raw = Except.ok []) :
    processQuestion o ev q =
      [Event.showSQL fr, Event.execCall cq, Event.resultsHeader] ++
        parseCallEvents raw ++ [Event.info "No results found."] ∧
    (∀ l, Event.table l ∉ processQuestion o ev q) ∧
    (∀ m, Event.errorMsg m ∉ processQuestion o ev q) := by
  have hm := processQuestion_ok o ev q fr hq ht
  rw [extractStep_some o ev q fr cq he, execStep_ok o ev q cq raw hx,
    innerStep_ok o ev q raw [] hp, afterParse_nil o ev q raw] at hm
  have hm2 : processQuestion o ev q =
      [Event.showSQL fr, Event.execCall cq, Event.resultsHeader] ++
        parseCallEvents raw ++ [Event.info "No results found."] := by
    rw [hm]
    simp
  refine ⟨hm2, ?_, ?_⟩ <;> intro x <;> rw [hm2] <;>
    cases raw <;> simp [parseCallEvents]

/-- C6 (witness): an executor returning the empty list produces the notice. -/
theorem C6_empty_results_notice_witness :
    processQuestion
        ⟨Except.ok "SQLQuery: SELECT 1",
         fun _ => Except.ok (RawResult.text "[]"),
         fun _ => Except.ok [],
         fun _ => Except.ok "s",
         fun _ => Except.ok "b"⟩ true "q" =
      [Event.showSQL "SQLQuery: SELECT 1", Event.execCall "SELECT 1",
       Event.resultsHeader, Event.litEvalCall "[]",
       Event.info "No results found."] := by
  have h := (C6_empty_results_notice
    ⟨Except.ok "SQLQuery: SELECT 1",
     fun _ => Except.ok (RawResult.text "[]"),
     fun _ => Except.ok [],
     fun _ => Except.ok "s",
     fun _ => Except.ok "b"⟩ true "q" "SQLQuery: SELECT 1" "SELECT 1"
    (RawResult.text "[]") (by decide) rfl (by decide) rfl rfl).1
  simpa [parseCallEvents] using h

/-- C7: with the voice-output toggle disabled, no speech-synthesis call is
ever made, whatever the question and whatever every collaborator returns. -/
theorem C7_voice_disabled_no_synth (o : Oracles) (q t : String) :
    Event.synthCall t ∉ processQuestion o false q := by
  unfold processQuestion
  split
  · simp
  · cases h : o.translator <;> simp [h, synthCall_not_mem_extractStep_false]

/-- C8: when the executor raises, the outer handler reports
`Error processing question: ` with the database error message, and the request
performs no parsing, no table rendering, no summarization and no synthesis. -/
theorem C8_executor_error_aborts (o : Oracles) (ev : Bool) (q fr cq e : String)
    (hq : q ≠ "") (ht : o.translator = Except.ok fr)
    (he : clean_query fr = some cq) (hx : o.executor cq = Except.error e) :
    processQuestion o ev q =
      [Event.showSQL fr, Event.execCall cq,
       Event.errorMsg ("Error processing question: " ++ e)] ∧
    Event.errorMsg ("Error processing question: " ++ e) ∈ processQuestion o ev q ∧
    (∀ s, Event.litEvalCall s ∉ processQuestion o ev q) ∧
    (∀ l, Event.table l ∉ processQuestion o ev q) ∧
    (∀ p, Event.summarizeCall p ∉ processQuestion o ev q) ∧
    (∀ t, Event.synthCall t ∉ processQuestion o ev q) := by
  have hm := processQuestion_ok o ev q fr hq ht
  rw [extractStep_some o ev q fr cq he, execStep_err o ev q cq e hx] at hm
  refine ⟨hm, by rw [hm]; simp, ?_, ?_, ?_, ?_⟩ <;>
    intro x <;> rw [hm] <;> simp

/-- C8 (witness): hallucinated SQL rejected by the database surfaces the raw
error and stops the pipeline. -/
theorem C8_executor_error_aborts_witness :
    processQuestion
        ⟨Except.ok "SQLQuery: DROP TABLE x",
         fun _ => Except.error "no such table: x",
         fun _ => Except.ok [],
         fun _ => Except.ok "s",
         fun _ => Except.ok "b"⟩ true "q" =
      [Event.showSQL "SQLQuery: DROP TABLE x", Event.execCall "DROP TABLE x",
       Event.errorMsg ("Error processing question: " ++ "no such table: x")] := by
  exact (C8_executor_error_aborts _ true "q" "SQLQuery: DROP TABLE x"
    "DROP TABLE x" "no such table: x" (by decide) rfl (by decide) rfl).1

/-- C9: a synthesis failure is caught inside `text_to_speech`, which reports
`Error generating speech: ` and yields no audio payload; the SQL view, the
table and the written summary are unaffected and no audio element is
rendered — synthesis failure is never fatal to the request. -/
theorem C9_synth_failure_nonfatal (o : Oracles) (q fr cq nl e : String)
    (raw : RawResult) (l : List Row)
    (hq : q ≠ "") (ht : o.translator = Except.ok fr)
    (he : clean_query fr = some cq) (hx : o.executor cq = Except.ok raw)
    (hp : parse_results o.litEval raw = Except.ok l) (hne : l ≠ [])
    (hs : o.summarizer (mkPrompt q l) = Except.ok nl)
    (htts : o.tts nl = Except.error e) :
    text_to_speech o.tts nl =
      ([Event.synthCall nl, Event.errorMsg ("Error generating speech: " ++ e)],
       none) ∧
    processQuestion o true q =
      [Event.showSQL fr, Event.execCall cq, Event.resultsHeader] ++
        parseCallEvents raw ++
        [Event.table l, Event.summaryHeader, Event.summarizeCall (mkPrompt q l),
         Event.writeSummary nl, Event.voiceHeader,
         Event.voiceCaption "Listen to the summary:", Event.synthCall nl,
         Event.errorMsg ("Error generating speech: " ++ e)] ∧
    (∀ h, Event.audioMarkdown h ∉ processQuestion o true q) ∧
    Event.table l ∈ processQuestion o true q ∧
    Event.writeSummary nl ∈ processQuestion o true q := by
  have hm := processQuestion_ok o true q fr hq ht
  rw [extractStep_some o true q fr cq he, execStep_ok o true q cq raw hx,
    innerStep_ok o true q raw l hp, afterParse_summ_ok o true q nl raw l hne hs,
    voiceStep_true_err o nl e htts] at hm
  have hm2 : processQuestion o true q =
      [Event.showSQL fr, Event.execCall cq, Event.resultsHeader] ++
        parseCallEvents raw ++
        [Event.table l, Event.summaryHeader, Event.summarizeCall (mkPrompt q l),
         Event.writeSummary nl, Event.voiceHeader,
         Event.voiceCaption "Listen to the summary:", Event.synthCall nl,
         Event.errorMsg ("Error generating speech: " ++ e)] := by
    rw [hm]
    simp
  refine ⟨text_to_speech_err o.tts nl e htts, hm2, ?_, ?_, ?_⟩
  · intro x
    rw [hm2]
    cases raw <;> simp [parseCallEvents]
  · rw [hm2]
    simp
  · rw [hm2]
    simp

/-- C9 (witness): a failing gTTS call degrades to the error notice while the
table and summary remain. -/
theorem C9_synth_failure_nonfatal_witness :
    processQuestion
        ⟨Except.ok "SQLQuery: SELECT 1",
         fun _ => Except.ok (RawResult.rows [[Cell.int 1]]),
         fun _ => Except.ok [],
         fun _ => Except.ok "one row",
         fun _ => Except.error "gTTS network error"⟩ true "q" =
      [Event.showSQL "SQLQuery: SELECT 1", Event.execCall "SELECT 1",
       Event.resultsHeader, Event.table [[Cell.int 1]], Event.summaryHeader,
       Event.summarizeCall (mkPrompt "q" [[Cell.int 1]]),
       Event.writeSummary "one row", Event.voiceHeader,
       Event.voiceCaption "Listen to the summary:", Event.synthCall "one row",
       Event.errorMsg ("Error generating speech: " ++ "gTTS network error")] := by
  have h := (C9_synth_failure_nonfatal
    ⟨Except.ok "SQLQuery: SELECT 1",
     fun _ => Except.ok (RawResult.rows [[Cell.int 1]]),
     fun _ => Except.ok [],
     fun _ => Except.ok "one row",
     fun _ => Except.error "gTTS network error"⟩ "q" "SQLQuery: SELECT 1"
    "SELECT 1" "one row" "gTTS network error"
    (RawResult.rows [[Cell.int 1]]) [[Cell.int 1]]
    (by decide) rfl (by decide) rfl rfl (by decide) rfl rfl).2.1
  simpa [parseCallEvents] using h

/-- C10: a request whose parsed result is empty never calls the summarizer
and never calls speech synthesis, even with the voice toggle enabled. -/
theorem C10_empty_skips_summary_and_voice (o : Oracles) (ev : Bool)
    (q fr cq : String) (raw : RawResult)
    (hq : q ≠ "") (ht : o.translator = Except.ok fr)
    (he : clean_query fr = some cq) (hx : o.executor cq = Except.ok raw)
    (hp : parse_results o.litEval raw = Except.ok []) :
    (∀ p, Event.summarizeCall p ∉ processQuestion o ev q) ∧
    (∀ t, Event.synthCall t ∉ processQuestion o ev q) := by
  have hm := processQuestion_ok o ev q fr hq ht
  rw [extractStep_some o ev q fr cq he, execStep_ok o ev q cq raw hx,
    innerStep_ok o ev q raw [] hp, afterParse_nil o ev q raw] at hm
  refine ⟨?_, ?_⟩ <;> intro x <;> rw [hm] <;>
    cases raw <;> simp [parseCallEvents]

/-- C10 (witness): empty rows with voice enabled — neither the summarizer
prompt nor a synthesis call for the would-be summary appears. -/
theorem C10_empty_skips_summary_and_voice_witness :
    Event.summarizeCall (mkPrompt "q" []) ∉
      processQuestion
        ⟨Except.ok "SQLQuery: SELECT 1",
         fun _ => Except.ok (RawResult.rows []),
         fun _ => Except.ok [],
         fun _ => Except.ok "s",
         fun _ => Except.ok "b"⟩ true "q" ∧
    Event.synthCall "s" ∉
      processQuestion
        ⟨Except.ok "SQLQuery: SELECT 1",
         fun _ => Except.ok (RawResult.rows []),
         fun _ => Except.ok [],
         fun _ => Except.ok "s",
         fun _ => Except.ok "b"⟩ true "q" := by
  have h := C10_empty_skips_summary_and_voice
    ⟨Except.ok "SQLQuery: SELECT 1",
     fun _ => Except.ok (RawResult.rows []),
     fun _ => Except.ok [],
     fun _ => Except.ok "s",
     fun _ => Except.ok "b"⟩ true "q" "SQLQuery: SELECT 1" "SELECT 1"
    (RawResult.rows []) (by decide) rfl (by decide) rfl rfl
  exact ⟨h.1 (mkPrompt "q" []), h.2 "s"⟩
